import Mathlib

/-!
Verification of the ArmaTuPc compatibility engine
(`etapa2_interfaz/filtros.py` and the socket-family heuristic of
`etapa1_normalizar/clases.py`) against its natural-language specification.

Modelling conventions:
* Python floats are modelled as rationals (`ℚ`); the engine only performs
  comparisons and additions on parsed catalog numbers, never float-specific
  operations.
* A JSON numeric field that may be missing, `null`, or a number is modelled by
  `JNum`; the normalizer (`Dimension.to_dict`, `PowerWattage.to_dict`,
  `_parse_int_or_empty`, ...) emits `null` for unparsable raw values, so the
  `null` state is reachable in real catalogs.
* A Python expression that raises (`None > 0` is a `TypeError` in Python 3,
  `.get` on a non-dict is an `AttributeError`) is modelled by `Except.error`;
  all other paths return `Except.ok`.
* String rendering of numbers inside report messages uses an integer
  rendering (`int(...)` in the source renders this way); messages built from
  f-strings interpolating `None` render it as "None", mirrored by `pyStr`.
-/

namespace ArmaTuPc

/-- State of a JSON numeric field: key absent, key present with `null`, or a
number. -/
inductive JNum where
  | miss
  | nul
  | num (q : ℚ)
deriving DecidableEq, Repr

/-- State of a JSON string field that the code reads with a bare `.get`:
key absent, key present with `null`, or a string. -/
inductive JStr where
  | miss
  | nul
  | str (s : String)
deriving DecidableEq, Repr

/-- Python's rendering of an optional string inside an f-string:
`None` renders as "None". -/
def pyStr : Option String → String
  | none => "None"
  | some s => s

/-- Python truthiness of an optional string: `None` and `""` are falsy. -/
def truthyS : Option String → Bool
  | none => false
  | some s => s ≠ ""

/-- Python `int(x)` rendering of a nonnegative rational inside an f-string. -/
def pyIntStr (q : ℚ) : String := toString q.floor

/-- Rendering of a raw numeric value inside an f-string (dimension and
connector-count messages). -/
def pyNumStr (q : ℚ) : String := toString q

/-! ## Python string primitives
Python's `str.strip`, `str.lower`, `str.upper`, `str.replace`, `str.isdigit`,
`str.startswith` and the substring operator `in`, modelled over `List Char`
so that they evaluate inside the kernel. -/

/-- Whitespace stripped by Python's `str.strip()`. -/
def pyIsSpace (c : Char) : Bool :=
  c = ' ' || c = '\t' || c = '\n' || c = '\r' || c = '\x0b' || c = '\x0c'

/-- Python `str.strip()`. -/
def pyStripChars (l : List Char) : List Char :=
  ((l.dropWhile pyIsSpace).reverse.dropWhile pyIsSpace).reverse

/-- Python `str.lower()` on one character (ASCII range, as exercised by the
engine's form-factor names). -/
def pyLowerChar (c : Char) : Char :=
  if 65 ≤ c.toNat ∧ c.toNat ≤ 90 then Char.ofNat (c.toNat + 32) else c

/-- Python `str.upper()` on one character (ASCII range, as exercised by the
socket-family heuristic). -/
def pyUpperChar (c : Char) : Char :=
  if 97 ≤ c.toNat ∧ c.toNat ≤ 122 then Char.ofNat (c.toNat - 32) else c

/-- Python `s.replace('_', '-')`. -/
def pyUnderscoreToDash (c : Char) : Char := if c = '_' then '-' else c

/-- Python's substring operator `needle in hay`. -/
def pyInStr (needle hay : List Char) : Prop := needle <:+: hay

instance (needle hay : List Char) : Decidable (pyInStr needle hay) :=
  inferInstanceAs (Decidable (needle <:+: hay))

/-! ## Form-factor compatibility predicate
`GestorFiltros._es_case_compatible_con_motherboard` (filtros.py 207-261). -/

/-- The fixed size-ordinal table `form_factor_sizes`, read with
`.get(x, -1)` in the source. -/
def formFactorSize (s : String) : Int :=
  if s = "e-atx" then 4
  else if s = "xl-atx" then 3
  else if s = "atx" then 2
  else if s = "micro-atx" then 1
  else if s = "mini-itx" then 0
  else -1

/-- The `name_variations` alias map, read with `.get(x, x)` in the source. -/
def nameVariation (s : String) : String :=
  if s = "matx" then "micro-atx"
  else if s = "µatx" then "micro-atx"
  else if s = "uatx" then "micro-atx"
  else if s = "mitx" then "mini-itx"
  else if s = "itx" then "mini-itx"
  else s

/-- Normalization applied to both strings: `strip().lower().replace('_','-')`
followed by the alias map. -/
def normalizeFF (s : String) : String :=
  nameVariation ⟨((pyStripChars s.data).map pyLowerChar).map pyUnderscoreToDash⟩

/-- Source: `GestorFiltros._es_case_compatible_con_motherboard`. -/
def esCaseCompatibleConMotherboard (caseSupport mbFormFactor : String) : Bool :=
  if caseSupport = "" ∨ mbFormFactor = "" then false
  else
    let c := normalizeFF caseSupport
    let m := normalizeFF mbFormFactor
    if c = m then true
    else
      let cs := formFactorSize c
      let ms := formFactorSize m
      if cs = -1 ∨ ms = -1 then decide (c = m)
      else decide (cs ≥ ms)

/-- The ordinal table exactly as the specification words it: a partial map
defined on the five known names. -/
def ordTable (s : String) : Option Int :=
  if s = "e-atx" then some 4
  else if s = "xl-atx" then some 3
  else if s = "atx" then some 2
  else if s = "micro-atx" then some 1
  else if s = "mini-itx" then some 0
  else none

/-- The compatibility relation as the specification words it: after
normalizing both strings, either they are equal, or both appear in the
ordinal table and the case's ordinal is at least the motherboard's. -/
def claimFormFactorCompat (c m : String) : Prop :=
  normalizeFF c = normalizeFF m ∨
    (∃ a b : Int, ordTable (normalizeFF c) = some a ∧
      ordTable (normalizeFF m) = some b ∧ a ≥ b)

theorem formFactorSize_eq_ordTable (s : String) :
    formFactorSize s = (ordTable s).getD (-1) := by
  unfold formFactorSize ordTable
  split_ifs <;> rfl

theorem ordTable_values (s : String) (a : Int) (h : ordTable s = some a) :
    a = 4 ∨ a = 3 ∨ a = 2 ∨ a = 1 ∨ a = 0 := by
  unfold ordTable at h
  split_ifs at h <;> simp_all

theorem ordTable_of_size_ne (s : String) (h : formFactorSize s ≠ -1) :
    ordTable s = some (formFactorSize s) := by
  rcases ho : ordTable s with _ | a
  · exact absurd (by rw [formFactorSize_eq_ordTable, ho]; rfl) h
  · rw [formFactorSize_eq_ordTable, ho]; rfl

theorem size_neg_of_ordTable_none (s : String) (h : ordTable s = none) :
    formFactorSize s = -1 := by
  rw [formFactorSize_eq_ordTable, h]; rfl

/-- C1. The form-factor compatibility predicate used by case filtering and
build validation agrees, on all pairs of non-empty strings, with the
specification's description: after normalization (trim, lower-case, `_`→`-`,
alias map), either the normalized names are equal, or both are in the ordinal
table with the case's ordinal at least the motherboard's; names outside the
table are only compatible on exact equality. In particular a case supporting
"ATX" accepts a "Micro-ATX" motherboard but not vice versa. -/
theorem es_case_compatible_iff_claim :
    (∀ c m : String, c ≠ "" → m ≠ "" →
      (esCaseCompatibleConMotherboard c m = true ↔ claimFormFactorCompat c m)) ∧
    esCaseCompatibleConMotherboard "ATX" "Micro-ATX" = true ∧
    esCaseCompatibleConMotherboard "Micro-ATX" "ATX" = false := by
  refine ⟨?_, by decide, by decide⟩
  intro c m hc hm
  unfold esCaseCompatibleConMotherboard claimFormFactorCompat
  have hne : ¬(c = "" ∨ m = "") := by simp [hc, hm]
  rw [if_neg hne]
  by_cases heq : normalizeFF c = normalizeFF m
  · simp [heq]
  · rw [if_neg heq]
    by_cases htab : formFactorSize (normalizeFF c) = -1 ∨
        formFactorSize (normalizeFF m) = -1
    · rw [if_pos htab]
      simp only [decide_eq_true_iff]
      constructor
      · intro h; exact absurd h heq
      · rintro (h | ⟨a, b, ha, hb, _⟩)
        · exact absurd h heq
        · have hsc : formFactorSize (normalizeFF c) = a := by
            rw [formFactorSize_eq_ordTable, ha]; rfl
          have hsm : formFactorSize (normalizeFF m) = b := by
            rw [formFactorSize_eq_ordTable, hb]; rfl
          have hav := ordTable_values _ _ ha
          have hbv := ordTable_values _ _ hb
          rcases hav with h' | h' | h' | h' | h' <;>
            rcases hbv with h'' | h'' | h'' | h'' | h'' <;>
            rcases htab with h1 | h1 <;> omega
    · rw [if_neg htab]
      push_neg at htab
      obtain ⟨h1, h2⟩ := htab
      rw [ordTable_of_size_ne _ h1, ordTable_of_size_ne _ h2]
      simp only [decide_eq_true_iff]
      constructor
      · intro h
        exact Or.inr ⟨_, _, rfl, rfl, h⟩
      · rintro (h | ⟨a, b, ha, hb, hab⟩)
        · exact absurd h heq
        · obtain rfl : a = formFactorSize (normalizeFF c) := by
            injection ha.symm
          obtain rfl : b = formFactorSize (normalizeFF m) := by
            injection hb.symm
          exact hab

theorem es_case_compatible_iff_claim_witness :
    ("ATX" : String) ≠ "" ∧ ("Micro-ATX" : String) ≠ "" ∧
    (esCaseCompatibleConMotherboard "ATX" "Micro-ATX" = true ↔
      claimFormFactorCompat "ATX" "Micro-ATX") :=
  ⟨by decide, by decide,
    es_case_compatible_iff_claim.1 "ATX" "Micro-ATX" (by decide) (by decide)⟩

/-! ## Component records
Each record carries exactly the fields the compatibility engine reads,
mirroring the normalized JSON shapes produced by `etapa1_normalizar`. -/

/-- Shape of `cpu['architecture']['tdp']`: the key may be absent, hold a
`{'value': ...}` dict (`ThermalDesignPower.to_dict`; its `value` may be
`null`), or hold a bare number. -/
inductive TdpInfo where
  | tmiss
  | tdict (value : Option ℚ)
  | tnum (q : ℚ)
deriving DecidableEq, Repr

structure ArchRec where
  socket : Option String := none
  tdp : TdpInfo := .tmiss
deriving DecidableEq, Repr

structure CPUc where
  architecture : Option ArchRec := none
  tdp : Option ℚ := none
deriving DecidableEq, Repr

structure CMRec where
  gpu_category : JStr := .miss
deriving DecidableEq, Repr

structure DimVal where
  value : JNum := .miss
deriving DecidableEq, Repr

structure GDimRec where
  length : Option DimVal := none
deriving DecidableEq, Repr

structure GPUc where
  calculated_metrics : Option CMRec := none
  tdp : Option ℚ := none
  dimensions : Option GDimRec := none
deriving DecidableEq, Repr

structure PlatRec where
  socket : Option String := none
deriving DecidableEq, Repr

structure MemRec where
  type : Option String := none
  slots : JNum := .miss
deriving DecidableEq, Repr

structure ConnRec where
  sata_ports : JNum := .miss
deriving DecidableEq, Repr

structure MBc where
  platform : Option PlatRec := none
  form_factor : Option String := none
  memory : Option MemRec := none
  connectivity : Option ConnRec := none
deriving DecidableEq, Repr

structure RTRec where
  generation : Option String := none
deriving DecidableEq, Repr

structure MSRec where
  ram_type : Option RTRec := none
  sticks : JNum := .miss
deriving DecidableEq, Repr

structure RAMc where
  memory_specs : Option MSRec := none
deriving DecidableEq, Repr

structure CaseCompatRec where
  motherboard : Option String := none
  power_supply : Option String := none
  supported_gpu_length : Option DimVal := none
  supported_cpu_cooler_height : Option DimVal := none
deriving DecidableEq, Repr

structure Casec where
  compatibility : Option CaseCompatRec := none
deriving DecidableEq, Repr

/-- Shape of `psu['power']['wattage']`: absent key, `{'value': ...}` dict
(`PowerWattage.to_dict`; its `value` may be `null`), `null`, or a bare
number. -/
inductive WattInfo where
  | wmiss
  | wdict (value : JNum)
  | wnul
  | wnum (q : ℚ)
deriving DecidableEq, Repr

structure PowerRec where
  wattage : WattInfo := .wmiss
deriving DecidableEq, Repr

structure PSUc where
  form_factor : Option String := none
  power : Option PowerRec := none
  wattage : JNum := .miss
deriving DecidableEq, Repr

structure CoolDimRec where
  height : Option DimVal := none
deriving DecidableEq, Repr

structure Coolerc where
  dimensions : Option CoolDimRec := none
deriving DecidableEq, Repr

structure StorageDev where
  interface : Option String := none
deriving DecidableEq, Repr

/-- A build: the `configuracion` dictionary, at most one component per
category plus the two auxiliary lists read by the connectivity validator. -/
structure Build where
  cpu : Option CPUc := none
  motherboard : Option MBc := none
  ram : Option RAMc := none
  gpu : Option GPUc := none
  case' : Option Casec := none
  psu : Option PSUc := none
  cpu_cooler : Option Coolerc := none
  ram_modules : List RAMc := []
  storage_devices : List StorageDev := []
deriving DecidableEq, Repr

/-- Python truthiness of the `configuracion` dict: empty means no keys. -/
def Build.isEmpty (b : Build) : Bool :=
  b.cpu.isNone && b.motherboard.isNone && b.ram.isNone && b.gpu.isNone &&
    b.case'.isNone && b.psu.isNone && b.cpu_cooler.isNone &&
    b.ram_modules.isEmpty && b.storage_devices.isEmpty

/-! ## Power budget estimator
`GestorFiltros._calcular_potencia_requerida` (filtros.py 302-359). -/

/-- The value of the `cpu_tdp` local after the architecture-based extraction:
`none` models Python `None` (triggering the top-level fallback). -/
def cpuTdpChain (c : CPUc) : Option ℚ :=
  match c.architecture with
  | some a =>
    match a.tdp with
    | .tdict v => v
    | .tnum q => some q
    | .tmiss => none
  | none => none

/-- CPU wattage added to the running total: the extracted TDP when the chain
produced a number, else `cpu_data.get('tdp', 65)` with the final
`isinstance` guard collapsing non-numbers to 65. -/
def cpuContribution (c : CPUc) : ℚ :=
  match cpuTdpChain c with
  | some q => q
  | none =>
    match c.tdp with
    | some q => q
    | none => 65

/-- The `gpu_power_map` lookup with default 180. -/
def gpuPowerMap (s : String) : ℚ :=
  if s = "entry_level" then 75
  else if s = "budget" then 120
  else if s = "mid_range" then 180
  else if s = "high_end" then 250
  else if s = "enthusiast" then 320
  else if s = "flagship" then 400
  else 180

/-- The value of the `gpu_category` local: defaults to "mid_range" when
`calculated_metrics` is absent or lacks the key; a `null` category survives
as `None` and falls to the map's 180 default. -/
def gpuCategory (g : GPUc) : JStr :=
  match g.calculated_metrics with
  | some cm =>
    match cm.gpu_category with
    | .miss => .str "mid_range"
    | x => x
  | none => .str "mid_range"

/-- GPU wattage added to the running total: always the category lookup; the
GPU's own `tdp` field is never consulted. -/
def gpuContribution (g : GPUc) : ℚ :=
  match gpuCategory g with
  | .str s => gpuPowerMap s
  | _ => 180

/-- Source: `GestorFiltros._calcular_potencia_requerida`. -/
def calcularPotenciaRequerida (b : Build) : ℚ :=
  if b.isEmpty then 300
  else
    let t1 : ℚ := match b.cpu with
      | some c => cpuContribution c
      | none => 0
    let t2 : ℚ := t1 + (match b.gpu with
      | some g => gpuContribution g
      | none => 0)
    let t3 : ℚ := t2 + 50
    let t4 : ℚ := t3 + 30
    max t4 300

/-- The power budget as the amended claim words it: `max(300, cpu + gpu +
50 + 30)` where the CPU contributes its direct TDP when present and numeric
(65 otherwise, 0 when absent) and the GPU contributes the category lookup
(direct GPU TDP is ignored; 0 when absent). -/
def specPowerBudget (b : Build) : ℚ :=
  let cpuPart : ℚ := match b.cpu with
    | none => 0
    | some c => (cpuTdpChain c).getD ((c.tdp).getD 65)
  let gpuPart : ℚ := match b.gpu with
    | none => 0
    | some g => gpuContribution g
  max 300 (cpuPart + gpuPart + 50 + 30)

theorem potencia_ge_300 (b : Build) : 300 ≤ calcularPotenciaRequerida b := by
  unfold calcularPotenciaRequerida
  split
  · exact le_refl _
  · exact le_max_right _ _

/-- C2 (counterexample): a build holding only a GPU with a present direct TDP
of 400 and category "entry_level" is budgeted 300 by the code, not the
`max(300, 0 + 400 + 50 + 30) = 480` the claim computes with the direct TDP. -/
theorem potencia_counterexample :
    calcularPotenciaRequerida
      { gpu := some { calculated_metrics := some { gpu_category := .str "entry_level" },
                      tdp := some 400 } } ≠
      max 300 (0 + 400 + 50 + 30) := by
  have h1 : calcularPotenciaRequerida
      { gpu := some { calculated_metrics := some { gpu_category := .str "entry_level" },
                      tdp := some 400 } } = 300 := by
    simp only [calcularPotenciaRequerida, Build.isEmpty, gpuContribution,
      gpuCategory, gpuPowerMap]
    norm_num
  have h2 : max (300 : ℚ) (0 + 400 + 50 + 30) = 480 := by
    rw [max_eq_right] <;> norm_num
  rw [h1, h2]
  norm_num

/-- C2 (amended): the estimated power budget is `max(300, cpu_contribution +
gpu_contribution + 50 + 30)`, where the GPU contributes via the category
lookup only (the GPU's direct TDP is ignored), and the result is never below
300; the estimator is a total function over builds. -/
theorem potencia_eq_spec (b : Build) :
    calcularPotenciaRequerida b = specPowerBudget b ∧
      300 ≤ calcularPotenciaRequerida b := by
  refine ⟨?_, potencia_ge_300 b⟩
  unfold calcularPotenciaRequerida specPowerBudget
  by_cases h : b.isEmpty
  · have hc : b.cpu = none := by
      cases hx : b.cpu <;> simp [Build.isEmpty, hx] at h ⊢
    have hg : b.gpu = none := by
      cases hx : b.gpu <;> simp [Build.isEmpty, hx] at h ⊢
    rw [if_pos h, hc, hg]
    norm_num
  · rw [if_neg h]
    cases b.cpu with
    | none => cases b.gpu <;> simp [max_comm, add_assoc]
    | some c =>
      cases b.gpu <;>
        cases hc : cpuTdpChain c <;> cases ht : c.tdp <;>
          simp [cpuContribution, hc, ht, max_comm, add_assoc]

/-! ## Full-build validator
`GestorFiltros.verificar_compatibilidad_completa` (filtros.py 361-456).
The PSU section can compare Python `None` against a number, a `TypeError`
in Python 3; the validator is therefore modelled as fallible. -/

structure Reporte where
  compatible : Bool
  advertencias : List String
  errores : List String
  recomendaciones : List String
deriving DecidableEq, Repr

def emptyReporte : Reporte := ⟨true, [], [], []⟩

def socketErrMsg (c m : Option String) : String :=
  "Incompatibilidad de socket: CPU (" ++ pyStr c ++ ") vs Motherboard (" ++
    pyStr m ++ ")"

def ramErrMsg (r m : Option String) : String :=
  "Incompatibilidad de RAM: RAM (" ++ pyStr r ++ ") vs Motherboard (" ++
    pyStr m ++ ")"

def ffErrMsg (c m : Option String) : String :=
  "Incompatibilidad de form factor: Case (" ++ pyStr c ++ ") vs Motherboard (" ++
    pyStr m ++ ")"

def psuErrMsg (w req : ℚ) : String :=
  "PSU insuficiente: " ++ pyIntStr w ++ "W vs " ++ pyIntStr req ++ "W requeridos"

def psuWarnMsg (w req : ℚ) : String :=
  "PSU con margen ajustado: " ++ pyIntStr w ++ "W vs " ++ pyIntStr req ++
    "W requeridos (recomendado: " ++ pyIntStr (req * (6/5)) ++ "W)"

/-- CPU↔Motherboard socket check (filtros.py 379-387). -/
def checkCpuMb (b : Build) (r : Reporte) : Reporte :=
  match b.cpu, b.motherboard with
  | some cpu, some mb =>
    let cs : Option String := cpu.architecture.bind ArchRec.socket
    let ms : Option String := mb.platform.bind PlatRec.socket
    if cs ≠ ms then
      { r with errores := r.errores ++ [socketErrMsg cs ms], compatible := false }
    else r
  | _, _ => r

/-- RAM↔Motherboard generation check (filtros.py 389-398). -/
def checkRamMb (b : Build) (r : Reporte) : Reporte :=
  match b.ram, b.motherboard with
  | some ram, some mb =>
    let rt : Option String :=
      (ram.memory_specs.bind MSRec.ram_type).bind RTRec.generation
    let mt : Option String := mb.memory.bind MemRec.type
    if rt ≠ mt then
      { r with errores := r.errores ++ [ramErrMsg rt mt], compatible := false }
    else r
  | _, _ => r

/-- Case↔Motherboard form-factor check (filtros.py 400-419). -/
def checkCaseMb (b : Build) (r : Reporte) : Reporte :=
  match b.case', b.motherboard with
  | some cs, some mb =>
    let sup : Option String := cs.compatibility.bind CaseCompatRec.motherboard
    let ff : Option String := mb.form_factor
    if truthyS sup ∧ truthyS ff then
      if esCaseCompatibleConMotherboard (sup.getD "") (ff.getD "") then r
      else { r with errores := r.errores ++ [ffErrMsg sup ff], compatible := false }
    else if ¬ truthyS sup then
      { r with advertencias := r.advertencias ++
          ["Case seleccionado no especifica compatibilidad de motherboard"] }
    else
      { r with advertencias := r.advertencias ++
          ["Motherboard seleccionada no especifica form factor"] }
  | _, _ => r

/-- The `psu_wattage` local after the nested-dict extraction block
(filtros.py 427-435); `none` models Python `None`. -/
def psuWattageRaw (p : PSUc) : Option ℚ :=
  match p.power with
  | some pow =>
    match pow.wattage with
    | .wdict .miss => some 0
    | .wdict .nul => none
    | .wdict (.num q) => some q
    | .wnum q => some q
    | .wnul => none
    | .wmiss => some 0
  | none => some 0

/-- The `psu_wattage` local after the `== 0` top-level fallback
(filtros.py 437-439). -/
def psuWattageFinal (p : PSUc) : Option ℚ :=
  match psuWattageRaw p with
  | some q =>
    if q = 0 then
      match p.wattage with
      | .miss => some 0
      | .nul => none
      | .num q' => some q'
    else some q
  | none => none

/-- PSU wattage check (filtros.py 421-454). Comparing an unparsable
(`null`-valued) wattage raises `TypeError`. -/
def checkPsu (b : Build) (r : Reporte) : Except String Reporte :=
  match b.psu with
  | none => .ok r
  | some p =>
    let req := calcularPotenciaRequerida b
    match psuWattageFinal p with
    | none => .error "TypeError: comparison between NoneType and number"
    | some w =>
      if w > 0 then
        if w < req then
          .ok { r with errores := r.errores ++ [psuErrMsg w req],
                       compatible := false }
        else if w < req * (6/5) then
          .ok { r with advertencias := r.advertencias ++ [psuWarnMsg w req] }
        else .ok r
      else
        .ok { r with advertencias := r.advertencias ++
            ["PSU seleccionado no especifica potencia"] }

/-- Source: `GestorFiltros.verificar_compatibilidad_completa`. -/
def verificarCompatibilidadCompleta (b : Build) : Except String Reporte :=
  checkPsu b (checkCaseMb b (checkRamMb b (checkCpuMb b emptyReporte)))

/-! ## Physical validators
`ValidadorCompatibilidad.validar_dimensiones_fisicas` (filtros.py 805-853)
and `validar_conectividad` (filtros.py 855-897). -/

structure Resultado where
  compatible : Bool
  advertencias : List String
  errores : List String
deriving DecidableEq, Repr

def emptyResultado : Resultado := ⟨true, [], []⟩

/-- Source: `case.get('compatibility', {}).get('supported_gpu_length', {}).get('value', 0)`. -/
def caseGpuLenExtract (c : Casec) : Option ℚ :=
  match c.compatibility with
  | some cc =>
    match cc.supported_gpu_length with
    | some d =>
      match d.value with
      | .miss => some 0
      | .nul => none
      | .num q => some q
    | none => some 0
  | none => some 0

/-- Source: `gpu.get('dimensions', {}).get('length', {}).get('value', 0)`. -/
def gpuLenExtract (g : GPUc) : Option ℚ :=
  match g.dimensions with
  | some d =>
    match d.length with
    | some l =>
      match l.value with
      | .miss => some 0
      | .nul => none
      | .num q => some q
    | none => some 0
  | none => some 0

/-- Source: `case.get('compatibility', {}).get('supported_cpu_cooler_height', {}).get('value', 0)`. -/
def caseCoolerHeightExtract (c : Casec) : Option ℚ :=
  match c.compatibility with
  | some cc =>
    match cc.supported_cpu_cooler_height with
    | some d =>
      match d.value with
      | .miss => some 0
      | .nul => none
      | .num q => some q
    | none => some 0
  | none => some 0

/-- Source: `cpu_cooler.get('dimensions', {}).get('height', {}).get('value', 0)`. -/
def coolerHeightExtract (c : Coolerc) : Option ℚ :=
  match c.dimensions with
  | some d =>
    match d.height with
    | some h =>
      match h.value with
      | .miss => some 0
      | .nul => none
      | .num q => some q
    | none => some 0
  | none => some 0

def gpuLenErrMsg (g l : ℚ) : String :=
  "GPU muy larga: " ++ pyNumStr g ++ "mm vs " ++ pyNumStr l ++
    "mm máximo del case"

def gpuLenWarnMsg (g l : ℚ) : String :=
  "GPU ajustada: " ++ pyNumStr g ++ "mm vs " ++ pyNumStr l ++ "mm máximo"

def coolerErrMsg (h m : ℚ) : String :=
  "CPU Cooler muy alto: " ++ pyNumStr h ++ "mm vs " ++ pyNumStr m ++
    "mm máximo"

/-- GPU-vs-case section of the dimension validator (filtros.py 826-839);
`None > 0` raises. -/
def dimStepGpu (b : Build) (r : Resultado) : Except String Resultado :=
  match b.case', b.gpu with
  | some c, some g =>
    match caseGpuLenExtract c with
    | none => .error "TypeError: comparison between NoneType and number"
    | some maxLen =>
      if maxLen > 0 then
        match gpuLenExtract g with
        | none => .error "TypeError: comparison between NoneType and number"
        | some len =>
          if len > 0 then
            if len > maxLen then
              .ok { r with errores := r.errores ++ [gpuLenErrMsg len maxLen],
                           compatible := false }
            else if len > maxLen * (9/10) then
              .ok { r with advertencias :=
                      r.advertencias ++ [gpuLenWarnMsg len maxLen] }
            else .ok r
          else .ok r
      else .ok r
  | _, _ => .ok r

/-- Cooler-vs-case section of the dimension validator (filtros.py 841-851). -/
def dimStepCooler (b : Build) (r : Resultado) : Except String Resultado :=
  match b.case', b.cpu_cooler with
  | some c, some cool =>
    match caseCoolerHeightExtract c with
    | none => .error "TypeError: comparison between NoneType and number"
    | some maxH =>
      if maxH > 0 then
        match coolerHeightExtract cool with
        | none => .error "TypeError: comparison between NoneType and number"
        | some h =>
          if h > 0 then
            if h > maxH then
              .ok { r with errores := r.errores ++ [coolerErrMsg h maxH],
                           compatible := false }
            else .ok r
          else .ok r
      else .ok r
  | _, _ => .ok r

/-- Source: `ValidadorCompatibilidad.validar_dimensiones_fisicas`. -/
def validarDimensionesFisicas (b : Build) : Except String Resultado := do
  let r1 ← dimStepGpu b emptyResultado
  dimStepCooler b r1

/-- Source: `ram.get('memory_specs', {}).get('sticks', 1)`. -/
def sticksExtract (r : RAMc) : Option ℚ :=
  match r.memory_specs with
  | some ms =>
    match ms.sticks with
    | .miss => some 1
    | .nul => none
    | .num q => some q
  | none => some 1

/-- Source: `sum(... for ram in ram_modules)`: raises on a `null` stick count. -/
def sumSticks : List RAMc → Option ℚ
  | [] => some 0
  | r :: rest => do
    let s ← sticksExtract r
    let t ← sumSticks rest
    pure (s + t)

/-- Source: `motherboard.get('memory', {}).get('slots', 0)`. -/
def mbSlotsExtract (mb : MBc) : Option ℚ :=
  match mb.memory with
  | some mem =>
    match mem.slots with
    | .miss => some 0
    | .nul => none
    | .num q => some q
  | none => some 0

/-- Source: `motherboard.get('connectivity', {}).get('sata_ports', 0)`. -/
def mbSataExtract (mb : MBc) : Option ℚ :=
  match mb.connectivity with
  | some c =>
    match c.sata_ports with
    | .miss => some 0
    | .nul => none
    | .num q => some q
  | none => some 0

def ramSlotsErrMsg (need avail : ℚ) : String :=
  "No hay suficientes slots de RAM: " ++ pyNumStr need ++ " necesarios vs " ++
    pyNumStr avail ++ " disponibles"

def sataErrMsg (need avail : ℚ) : String :=
  "No hay suficientes puertos SATA: " ++ pyNumStr need ++ " necesarios vs " ++
    pyNumStr avail ++ " disponibles"

/-- RAM-slot section of the connectivity validator (filtros.py 876-884). -/
def connStepRam (b : Build) (r : Resultado) : Except String Resultado :=
  match b.motherboard, b.ram_modules with
  | some mb, mods@(_ :: _) =>
    match sumSticks mods with
    | none => .error "TypeError: sum of NoneType and number"
    | some need =>
      match mbSlotsExtract mb with
      | none => .error "TypeError: comparison between NoneType and number"
      | some avail =>
        if need > avail then
          .ok { r with errores := r.errores ++ [ramSlotsErrMsg need avail],
                       compatible := false }
        else .ok r
  | _, _ => .ok r

/-- SATA-port section of the connectivity validator (filtros.py 886-895). -/
def connStepSata (b : Build) (r : Resultado) : Except String Resultado :=
  match b.motherboard, b.storage_devices with
  | some mb, devs@(_ :: _) =>
    let need : ℚ :=
      ((devs.filter (fun d => d.interface = some "SATA")).length : ℚ)
    match mbSataExtract mb with
    | none => .error "TypeError: comparison between NoneType and number"
    | some avail =>
      if need > avail then
        .ok { r with errores := r.errores ++ [sataErrMsg need avail],
                     compatible := false }
      else .ok r
  | _, _ => .ok r

/-- Source: `ValidadorCompatibilidad.validar_conectividad`. -/
def validarConectividad (b : Build) : Except String Resultado := do
  let r1 ← connStepRam b emptyResultado
  connStepSata b r1

/-! ## Report invariants -/

/-- The report invariant of the specification: `compatible` is false exactly
when `errores` is non-empty. -/
def reporteOk (r : Reporte) : Prop := r.compatible = false ↔ r.errores ≠ []

def resultadoOk (r : Resultado) : Prop := r.compatible = false ↔ r.errores ≠ []

theorem reporteOk_empty : reporteOk emptyReporte := by
  simp [reporteOk, emptyReporte]

theorem resultadoOk_empty : resultadoOk emptyResultado := by
  simp [resultadoOk, emptyResultado]

theorem checkCpuMb_ok (b : Build) (r : Reporte) (h : reporteOk r) :
    reporteOk (checkCpuMb b r) := by
  unfold checkCpuMb
  split
  · dsimp only
    split
    · simp [reporteOk]
    · exact h
  · exact h

theorem checkRamMb_ok (b : Build) (r : Reporte) (h : reporteOk r) :
    reporteOk (checkRamMb b r) := by
  unfold checkRamMb
  split
  · dsimp only
    split
    · simp [reporteOk]
    · exact h
  · exact h

theorem checkCaseMb_ok (b : Build) (r : Reporte) (h : reporteOk r) :
    reporteOk (checkCaseMb b r) := by
  unfold checkCaseMb
  split
  · dsimp only
    split
    · split
      · exact h
      · simp [reporteOk]
    · split
      · exact h
      · exact h
  · exact h

theorem checkPsu_ok (b : Build) (r r' : Reporte) (h : reporteOk r)
    (he : checkPsu b r = .ok r') : reporteOk r' := by
  unfold checkPsu at he
  split at he
  · cases he; exact h
  · split at he
    · simp at he
    · split at he
      · dsimp only at he
        split at he
        · cases he; simp [reporteOk]
        · split at he
          · cases he; exact h
          · cases he; exact h
      · cases he; exact h

theorem verificar_ok (b : Build) (r : Reporte)
    (he : verificarCompatibilidadCompleta b = .ok r) : reporteOk r := by
  unfold verificarCompatibilidadCompleta at he
  exact checkPsu_ok b _ r
    (checkCaseMb_ok b _ (checkRamMb_ok b _ (checkCpuMb_ok b _ reporteOk_empty)))
    he

theorem dimStepGpu_ok (b : Build) (r r' : Resultado) (h : resultadoOk r)
    (he : dimStepGpu b r = .ok r') : resultadoOk r' := by
  unfold dimStepGpu at he
  split at he
  · split at he
    · simp at he
    · split at he
      · split at he
        · simp at he
        · split at he
          · split at he
            · cases he; simp [resultadoOk]
            · split at he
              · cases he; exact h
              · cases he; exact h
          · cases he; exact h
      · cases he; exact h
  · cases he; exact h

theorem dimStepCooler_ok (b : Build) (r r' : Resultado) (h : resultadoOk r)
    (he : dimStepCooler b r = .ok r') : resultadoOk r' := by
  unfold dimStepCooler at he
  split at he
  · split at he
    · simp at he
    · split at he
      · split at he
        · simp at he
        · split at he
          · split at he
            · cases he; simp [resultadoOk]
            · cases he; exact h
          · cases he; exact h
      · cases he; exact h
  · cases he; exact h

theorem validarDimensiones_ok (b : Build) (r : Resultado)
    (he : validarDimensionesFisicas b = .ok r) : resultadoOk r := by
  unfold validarDimensionesFisicas at he
  cases h1 : dimStepGpu b emptyResultado with
  | error s => rw [h1] at he; simp [Bind.bind, Except.bind] at he
  | ok r1 =>
    rw [h1] at he
    simp only [Bind.bind, Except.bind] at he
    exact dimStepCooler_ok b r1 r (dimStepGpu_ok b _ r1 resultadoOk_empty h1) he

theorem connStepRam_ok (b : Build) (r r' : Resultado) (h : resultadoOk r)
    (he : connStepRam b r = .ok r') : resultadoOk r' := by
  unfold connStepRam at he
  split at he
  · split at he
    · simp at he
    · split at he
      · simp at he
      · split at he
        · cases he; simp [resultadoOk]
        · cases he; exact h
  · cases he; exact h

theorem connStepSata_ok (b : Build) (r r' : Resultado) (h : resultadoOk r)
    (he : connStepSata b r = .ok r') : resultadoOk r' := by
  unfold connStepSata at he
  dsimp only at he
  split at he
  · split at he
    · simp at he
    · split at he
      · cases he; simp [resultadoOk]
      · cases he; exact h
  · cases he; exact h

theorem validarConectividad_ok (b : Build) (r : Resultado)
    (he : validarConectividad b = .ok r) : resultadoOk r := by
  unfold validarConectividad at he
  cases h1 : connStepRam b emptyResultado with
  | error s => rw [h1] at he; simp [Bind.bind, Except.bind] at he
  | ok r1 =>
    rw [h1] at he
    simp only [Bind.bind, Except.bind] at he
    exact connStepSata_ok b r1 r (connStepRam_ok b _ r1 resultadoOk_empty h1) he

/-- C3: every report actually produced by the full-build validator and by the
two physical validators has `compatible = false` exactly when its `errores`
list is non-empty; warnings are appended on disjoint fields and never touch
the flag. -/
theorem compatible_iff_errores (b : Build) :
    (∀ r, verificarCompatibilidadCompleta b = .ok r →
      (r.compatible = false ↔ r.errores ≠ [])) ∧
    (∀ r, validarDimensionesFisicas b = .ok r →
      (r.compatible = false ↔ r.errores ≠ [])) ∧
    (∀ r, validarConectividad b = .ok r →
      (r.compatible = false ↔ r.errores ≠ [])) :=
  ⟨fun r he => verificar_ok b r he,
   fun r he => validarDimensiones_ok b r he,
   fun r he => validarConectividad_ok b r he⟩

theorem compatible_iff_errores_witness :
    ((⟨false, [],
        ["Incompatibilidad de socket: CPU (AM4) vs Motherboard (None)"],
        []⟩ : Reporte).compatible = false ↔
      (⟨false, [],
        ["Incompatibilidad de socket: CPU (AM4) vs Motherboard (None)"],
        []⟩ : Reporte).errores ≠ []) :=
  (compatible_iff_errores
    { cpu := some { architecture := some { socket := some "AM4" } },
      motherboard := some { platform := some { socket := none } } }).1
    _ (by rfl)

/-! ## Missing-field behaviour of the full-build validator -/

/-- C4 (counterexample): with CPU and motherboard both selected but the
motherboard lacking a socket value, the validator appends an error (rendering
the missing side as "None") and no warning — the check is not skipped with a
warning as claimed. -/
theorem verificar_missing_socket_is_error :
    verificarCompatibilidadCompleta
      { cpu := some { architecture := some { socket := some "AM4" } },
        motherboard := some { platform := some { socket := none } } } =
      .ok ⟨false, [],
        ["Incompatibilidad de socket: CPU (AM4) vs Motherboard (None)"], []⟩ := by
  rfl

/-- C4 (amended): only the case↔motherboard form-factor check and the PSU
wattage check degrade to warnings on missing data; the CPU↔motherboard socket
check and the RAM↔motherboard generation check treat a value missing on one
side as an ordinary mismatch and append an error, while values missing on
both sides compare equal and produce no message. -/
theorem missing_field_behaviour :
    (∀ (b : Build) (r : Reporte) (cpu : CPUc) (mb : MBc) (s : String),
      b.cpu = some cpu → b.motherboard = some mb →
      cpu.architecture.bind ArchRec.socket = some s →
      mb.platform.bind PlatRec.socket = none →
      checkCpuMb b r =
        { r with errores := r.errores ++ [socketErrMsg (some s) none],
                 compatible := false }) ∧
    (∀ (b : Build) (r : Reporte) (cpu : CPUc) (mb : MBc) (s : String),
      b.cpu = some cpu → b.motherboard = some mb →
      cpu.architecture.bind ArchRec.socket = none →
      mb.platform.bind PlatRec.socket = some s →
      checkCpuMb b r =
        { r with errores := r.errores ++ [socketErrMsg none (some s)],
                 compatible := false }) ∧
    (∀ (b : Build) (r : Reporte) (cpu : CPUc) (mb : MBc),
      b.cpu = some cpu → b.motherboard = some mb →
      cpu.architecture.bind ArchRec.socket = none →
      mb.platform.bind PlatRec.socket = none →
      checkCpuMb b r = r) ∧
    (∀ (b : Build) (r : Reporte) (ram : RAMc) (mb : MBc) (g : String),
      b.ram = some ram → b.motherboard = some mb →
      (ram.memory_specs.bind MSRec.ram_type).bind RTRec.generation = some g →
      mb.memory.bind MemRec.type = none →
      checkRamMb b r =
        { r with errores := r.errores ++ [ramErrMsg (some g) none],
                 compatible := false }) ∧
    (∀ (b : Build) (r : Reporte) (ram : RAMc) (mb : MBc) (t : String),
      b.ram = some ram → b.motherboard = some mb →
      (ram.memory_specs.bind MSRec.ram_type).bind RTRec.generation = none →
      mb.memory.bind MemRec.type = some t →
      checkRamMb b r =
        { r with errores := r.errores ++ [ramErrMsg none (some t)],
                 compatible := false }) ∧
    (∀ (b : Build) (r : Reporte) (ram : RAMc) (mb : MBc),
      b.ram = some ram → b.motherboard = some mb →
      (ram.memory_specs.bind MSRec.ram_type).bind RTRec.generation = none →
      mb.memory.bind MemRec.type = none →
      checkRamMb b r = r) ∧
    (∀ (b : Build) (r : Reporte) (cs : Casec) (mb : MBc),
      b.case' = some cs → b.motherboard = some mb →
      ¬ truthyS (cs.compatibility.bind CaseCompatRec.motherboard) →
      checkCaseMb b r =
        { r with advertencias := r.advertencias ++
            ["Case seleccionado no especifica compatibilidad de motherboard"] }) ∧
    (∀ (b : Build) (r : Reporte) (cs : Casec) (mb : MBc),
      b.case' = some cs → b.motherboard = some mb →
      truthyS (cs.compatibility.bind CaseCompatRec.motherboard) →
      ¬ truthyS mb.form_factor →
      checkCaseMb b r =
        { r with advertencias := r.advertencias ++
            ["Motherboard seleccionada no especifica form factor"] }) ∧
    (∀ (b : Build) (r : Reporte) (p : PSUc),
      b.psu = some p → psuWattageFinal p = some 0 →
      checkPsu b r =
        .ok { r with advertencias := r.advertencias ++
            ["PSU seleccionado no especifica potencia"] }) := by
  refine ⟨?_, ?_, ?_, ?_, ?_, ?_, ?_, ?_, ?_⟩
  · intro b r cpu mb s hb hm hcs hms
    unfold checkCpuMb
    rw [hb, hm]
    dsimp only
    rw [hcs, hms, if_pos (by simp)]
  · intro b r cpu mb s hb hm hcs hms
    unfold checkCpuMb
    rw [hb, hm]
    dsimp only
    rw [hcs, hms, if_pos (by simp)]
  · intro b r cpu mb hb hm hcs hms
    unfold checkCpuMb
    rw [hb, hm]
    dsimp only
    rw [hcs, hms, if_neg (by simp)]
  · intro b r ram mb g hb hm hrt hmt
    unfold checkRamMb
    rw [hb, hm]
    dsimp only
    rw [hrt, hmt, if_pos (by simp)]
  · intro b r ram mb t hb hm hrt hmt
    unfold checkRamMb
    rw [hb, hm]
    dsimp only
    rw [hrt, hmt, if_pos (by simp)]
  · intro b r ram mb hb hm hrt hmt
    unfold checkRamMb
    rw [hb, hm]
    dsimp only
    rw [hrt, hmt, if_neg (by simp)]
  · intro b r cs mb hb hm hsup
    unfold checkCaseMb
    rw [hb, hm]
    dsimp only
    rw [if_neg (by simp [hsup]), if_pos (by simp [hsup])]
  · intro b r cs mb hb hm hsup hff
    unfold checkCaseMb
    rw [hb, hm]
    dsimp only
    rw [if_neg (by simp [hff]), if_neg (by simp [hsup])]
  · intro b r p hb hw
    unfold checkPsu
    rw [hb]
    dsimp only
    rw [hw]
    dsimp only
    rw [if_neg (by norm_num)]

theorem missing_field_behaviour_witness :
    checkCpuMb
      { cpu := some { architecture := some { socket := some "AM4" } },
        motherboard := some { platform := some { socket := none } } }
      emptyReporte =
      { emptyReporte with
          errores := ["Incompatibilidad de socket: CPU (AM4) vs Motherboard (None)"],
          compatible := false } ∧
    checkRamMb
      { ram := some { memory_specs := some { ram_type := some { generation := none } } },
        motherboard := some { memory := some { type := some "DDR4" } } }
      emptyReporte =
      { emptyReporte with
          errores := ["Incompatibilidad de RAM: RAM (None) vs Motherboard (DDR4)"],
          compatible := false } ∧
    checkRamMb
      { ram := some { memory_specs := some { ram_type := some { generation := none } } },
        motherboard := some { memory := some { type := none } } }
      emptyReporte = emptyReporte ∧
    checkPsu
      { psu := some { power := some { wattage := .wmiss } } }
      emptyReporte =
      .ok { emptyReporte with
              advertencias := ["PSU seleccionado no especifica potencia"] } := by
  refine ⟨?_, ?_, ?_, ?_⟩
  · exact missing_field_behaviour.1 _ emptyReporte _ _ "AM4" rfl rfl rfl rfl
  · exact missing_field_behaviour.2.2.2.2.1 _ emptyReporte _ _ "DDR4" rfl rfl rfl rfl
  · exact missing_field_behaviour.2.2.2.2.2.1 _ emptyReporte _ _ rfl rfl rfl rfl
  · exact missing_field_behaviour.2.2.2.2.2.2.2.2 _ emptyReporte _ rfl rfl

/-- C5 (bug evaluation): a PSU whose normalized wattage value is `null` (the
normalizer's output for an unparsable raw `Watt` field) makes the full-build
validator raise a `TypeError` instead of appending the
"PSU seleccionado no especifica potencia" warning. -/
theorem verificar_null_wattage_raises :
    verificarCompatibilidadCompleta
      { psu := some { power := some { wattage := .wdict .nul } } } =
      .error "TypeError: comparison between NoneType and number" := by
  rfl

/-- C6 (bug evaluation): a case whose normalized `supported_gpu_length` value
is `null` (the normalizer's output for an unparsable raw field) makes the
dimension validator raise a `TypeError` instead of skipping the pair without
a message. -/
theorem dimensiones_null_length_raises :
    validarDimensionesFisicas
      { case' := some { compatibility := some { supported_gpu_length := some { value := .nul } } },
        gpu := some ({} : GPUc) } =
      .error "TypeError: comparison between NoneType and number" := by
  rfl

/-! ## Socket family heuristic
`SocketSupport.get_socket_families` (clases.py 301-321) and the
`is_universal` flag of `CPUCoolerDataNormalizer._analyze_compatibility`
(clases.py 377-395). -/

structure SocketFamilies where
  intel : List String
  amd : List String
deriving DecidableEq, Repr

/-- Python `socket.isdigit()`. -/
def pyIsDigitStr (s : String) : Bool := s ≠ "" && s.data.all Char.isDigit

/-- Python `socket.startswith('LGA')`. -/
def startsWithLGA (s : String) : Bool := "LGA".data.isPrefixOf s.data

/-- Python `socket.upper()` as a character list. -/
def pyUpper (s : String) : List Char := s.data.map pyUpperChar

/-- Source: `any(x in socket.upper() for x in ['AM', 'FM', 'TR4', 'sTRX4'])`:
the markers are written literally in the source, the last one with a
lower-case letter. -/
def amdMarkerHit (s : String) : Bool :=
  decide (pyInStr "AM".data (pyUpper s)) ||
    decide (pyInStr "FM".data (pyUpper s)) ||
    decide (pyInStr "TR4".data (pyUpper s)) ||
    decide (pyInStr "sTRX4".data (pyUpper s))

/-- Source: `SocketSupport.get_socket_families`. -/
def getSocketFamilies : List String → SocketFamilies
  | [] => ⟨[], []⟩
  | s :: rest =>
    let f := getSocketFamilies rest
    if pyIsDigitStr s || startsWithLGA s then ⟨s :: f.intel, f.amd⟩
    else if amdMarkerHit s then ⟨f.intel, s :: f.amd⟩
    else ⟨s :: f.intel, s :: f.amd⟩

/-- The classification exactly as the claim words it: AMD markers matched
case-insensitively (both sides upper-cased). -/
def claimAmdHit (s : String) : Bool :=
  decide (pyInStr (pyUpper "AM") (pyUpper s)) ||
    decide (pyInStr (pyUpper "FM") (pyUpper s)) ||
    decide (pyInStr (pyUpper "TR4") (pyUpper s)) ||
    decide (pyInStr (pyUpper "sTRX4") (pyUpper s))

def claimSocketFamilies : List String → SocketFamilies
  | [] => ⟨[], []⟩
  | s :: rest =>
    let f := claimSocketFamilies rest
    if pyIsDigitStr s || startsWithLGA s then ⟨s :: f.intel, f.amd⟩
    else if claimAmdHit s then ⟨f.intel, s :: f.amd⟩
    else ⟨s :: f.intel, s :: f.amd⟩

/-- The `is_universal` flag (clases.py 392). -/
def esUniversal (sockets : List String) : Bool :=
  decide ((getSocketFamilies sockets).intel.length > 0) &&
    decide ((getSocketFamilies sockets).amd.length > 0)

theorem char_toNat_ofNat_lt (n : Nat) (h : n < 55296) :
    (Char.ofNat n).toNat = n := by
  simp [Char.ofNat, Nat.isValidChar, h, Char.ofNatAux, Char.toNat, UInt32.toNat]

theorem pyUpperChar_ne_lower_s (c : Char) : pyUpperChar c ≠ 's' := by
  unfold pyUpperChar
  split
  · rename_i h
    intro hc
    have hlt : c.toNat - 32 < 55296 := by omega
    have hv := char_toNat_ofNat_lt (c.toNat - 32) hlt
    rw [hc] at hv
    have hs : ('s').toNat = 115 := by decide
    omega
  · rename_i h
    intro hc
    subst hc
    exact h (by decide)

theorem sTRX4_marker_never_fires (s : String) :
    decide (pyInStr "sTRX4".data (pyUpper s)) = false := by
  rw [decide_eq_false_iff_not]
  intro hin
  have hmem : 's' ∈ pyUpper s := hin.subset (by decide)
  obtain ⟨c, _, hc⟩ := List.mem_map.mp hmem
  exact pyUpperChar_ne_lower_s c hc

/-- C7 (counterexample): on the socket string "sTRX4" the source places the
socket in both families (the upper-cased socket "STRX4" matches no marker
literally), while the claim's case-insensitive matching classifies it as
AMD-only. -/
theorem socket_families_counterexample :
    getSocketFamilies ["sTRX4"] = ⟨["sTRX4"], ["sTRX4"]⟩ ∧
      claimSocketFamilies ["sTRX4"] = ⟨[], ["sTRX4"]⟩ := by
  constructor <;> decide

/-- The classification the source actually implements: markers are matched
literally against the upper-cased socket, so the `sTRX4` marker can never
fire and only `AM`, `FM`, `TR4` are effective. -/
def amendedAmdHit (s : String) : Bool :=
  decide (pyInStr "AM".data (pyUpper s)) ||
    decide (pyInStr "FM".data (pyUpper s)) ||
    decide (pyInStr "TR4".data (pyUpper s))

def amendedSocketFamilies (sockets : List String) : SocketFamilies :=
  ⟨sockets.filter (fun s => pyIsDigitStr s || startsWithLGA s || !amendedAmdHit s),
    sockets.filter (fun s => !(pyIsDigitStr s || startsWithLGA s))⟩

theorem amdMarkerHit_eq_amended (s : String) :
    amdMarkerHit s = amendedAmdHit s := by
  unfold amdMarkerHit amendedAmdHit
  rw [sTRX4_marker_never_fires]
  simp

/-- C7 (amended): a socket is Intel iff purely numeric or `LGA`-prefixed;
otherwise AMD iff its upper-casing contains `AM`, `FM` or `TR4` (the
`sTRX4` marker, carrying a lower-case letter, never matches an upper-cased
string); otherwise it lands in both partitions. A cooler is universal iff
both partitions are non-empty. -/
theorem socket_families_amended :
    (∀ sockets, getSocketFamilies sockets = amendedSocketFamilies sockets) ∧
    (∀ sockets, esUniversal sockets = true ↔
      ((getSocketFamilies sockets).intel ≠ [] ∧
        (getSocketFamilies sockets).amd ≠ [])) := by
  constructor
  · intro l
    induction l with
    | nil => rfl
    | cons s rest ih =>
      have hi : (getSocketFamilies rest).intel =
          (amendedSocketFamilies rest).intel := by rw [ih]
      have ha : (getSocketFamilies rest).amd =
          (amendedSocketFamilies rest).amd := by rw [ih]
      simp only [getSocketFamilies, amendedSocketFamilies, List.filter_cons]
      rw [amdMarkerHit_eq_amended]
      by_cases h1 : (pyIsDigitStr s || startsWithLGA s) = true
      · simp [h1, hi, ha, amendedSocketFamilies]
      · by_cases h2 : amendedAmdHit s = true
        · simp [h1, h2, hi, ha, amendedSocketFamilies,
            Bool.or_eq_true_iff.mp, eq_false_of_ne_true h1]
        · simp [h1, h2, hi, ha, amendedSocketFamilies]
  · intro sockets
    simp [esUniversal, List.length_pos]

/-! ## Cascading filters (filtros.py 118-300) -/

/-- Source: `mb.get('platform', {}).get('socket')`. -/
def mbSocketOpt (mb : MBc) : Option String := mb.platform.bind PlatRec.socket

/-- Source: `GestorFiltros.filtrar_motherboards_por_socket`: the source loop appends
matching boards in catalog order. -/
def filtrarMotherboardsPorSocket (mbs : List MBc) (socket : String) : List MBc :=
  match mbs with
  | [] => []
  | mb :: rest =>
    if mbSocketOpt mb = some socket then
      mb :: filtrarMotherboardsPorSocket rest socket
    else filtrarMotherboardsPorSocket rest socket

/-- C8: the motherboard-by-socket filter returns exactly the boards whose
socket field equals the query under case-sensitive string equality, as a
sublist (hence in catalog order) of the source catalog; "am4" does not match
a board whose socket is "AM4". -/
theorem filtrar_motherboards_exact :
    (∀ (mbs : List MBc) (s : String),
      filtrarMotherboardsPorSocket mbs s =
        mbs.filter (fun mb => decide (mbSocketOpt mb = some s)) ∧
      (filtrarMotherboardsPorSocket mbs s).Sublist mbs ∧
      (∀ mb, mb ∈ filtrarMotherboardsPorSocket mbs s ↔
        mb ∈ mbs ∧ mbSocketOpt mb = some s)) ∧
    filtrarMotherboardsPorSocket
      [{ platform := some { socket := some "AM4" } }] "am4" = [] := by
  constructor
  · intro mbs s
    have hfil : filtrarMotherboardsPorSocket mbs s =
        mbs.filter (fun mb => decide (mbSocketOpt mb = some s)) := by
      induction mbs with
      | nil => rfl
      | cons mb rest ih =>
        unfold filtrarMotherboardsPorSocket
        rw [List.filter_cons]
        by_cases h : mbSocketOpt mb = some s
        · simp [h, ih]
        · simp [h, ih]
    refine ⟨hfil, ?_, ?_⟩
    · rw [hfil]; exact List.filter_sublist _
    · intro mb
      rw [hfil, List.mem_filter]
      simp
  · rfl

/-- Source: `mb.get('memory', {}).get('type')`. -/
def mbTypeOpt (mb : MBc) : Option String := mb.memory.bind MemRec.type

/-- Source: `ram.get('memory_specs', {}).get('ram_type', {}).get('generation')`. -/
def ramGeneration (r : RAMc) : Option String :=
  (r.memory_specs.bind MSRec.ram_type).bind RTRec.generation

/-- The `tipos_ram_soportados` set (filtros.py 162-176): generations of the
motherboards surviving the optional socket and form-factor truthiness
filters; the Python set is modelled as a list and used only through
membership. Only truthy (non-`None`, non-empty) types are inserted. -/
def tiposRamSoportados (mbs : List MBc) (socket ff : Option String) :
    List String :=
  let m1 := if truthyS socket then
      mbs.filter (fun mb => decide (mbSocketOpt mb = socket)) else mbs
  let m2 := if truthyS ff then
      m1.filter (fun mb => decide (mb.form_factor = ff)) else m1
  (m2.filterMap mbTypeOpt).filter (fun t => decide (t ≠ ""))

/-- Source: `GestorFiltros.filtrar_ram_por_motherboard` (filtros.py 151-185). -/
def filtrarRamPorMotherboard (mbs : List MBc) (rams : List RAMc)
    (socket ff : Option String) : List RAMc × List String :=
  let tipos := tiposRamSoportados mbs socket ff
  (rams.filter (fun r =>
      match ramGeneration r with
      | some g => tipos.contains g
      | none => false),
    tipos)

/-- C9: every RAM entry returned by the RAM filter has a generation in the
supported-generations set computed from the motherboard catalog, and
re-filtering the returned list with the same parameters (motherboard catalog
unchanged) returns it unchanged. -/
theorem filtrar_ram_idempotente :
    ∀ (mbs : List MBc) (rams : List RAMc) (socket ff : Option String),
      (∀ r ∈ (filtrarRamPorMotherboard mbs rams socket ff).1,
        ∃ g, ramGeneration r = some g ∧ g ∈ tiposRamSoportados mbs socket ff) ∧
      (filtrarRamPorMotherboard mbs
          (filtrarRamPorMotherboard mbs rams socket ff).1 socket ff).1 =
        (filtrarRamPorMotherboard mbs rams socket ff).1 := by
  intro mbs rams socket ff
  constructor
  · intro r hr
    unfold filtrarRamPorMotherboard at hr
    rw [List.mem_filter] at hr
    rcases hg : ramGeneration r with _ | g
    · rw [hg] at hr; simp at hr
    · rw [hg] at hr
      exact ⟨g, rfl, by simpa using hr.2⟩
  · unfold filtrarRamPorMotherboard
    dsimp only
    rw [List.filter_filter]
    congr 1
    funext r
    cases ramGeneration r <;> simp

theorem filtrar_ram_idempotente_witness :
    ∃ g, ramGeneration { memory_specs := some { ram_type := some { generation := some "DDR4" } } } = some g ∧
      g ∈ tiposRamSoportados [{ memory := some { type := some "DDR4" } }] none none :=
  (filtrar_ram_idempotente [{ memory := some { type := some "DDR4" } }]
      [{ memory_specs := some { ram_type := some { generation := some "DDR4" } } }]
      none none).1
    { memory_specs := some { ram_type := some { generation := some "DDR4" } } }
    (by decide)

/-- Source: `psu.get('power', {}).get('wattage', {}).get('value', 0)` in the PSU
filter (filtros.py 287): a `null` value reaches the `>=` comparison and
raises `TypeError`; a bare or `null` wattage entry is not a dict, so the
chained `.get` raises `AttributeError`. -/
def psuFilterWattage (p : PSUc) : Except String ℚ :=
  match p.power with
  | none => .ok 0
  | some pow =>
    match pow.wattage with
    | .wmiss => .ok 0
    | .wdict .miss => .ok 0
    | .wdict .nul => .error "TypeError: comparison between NoneType and number"
    | .wdict (.num q) => .ok q
    | .wnul => .error "AttributeError: NoneType has no attribute get"
    | .wnum _ => .error "AttributeError: float has no attribute get"

/-- The `compatible_form_factor` flag (filtros.py 290-292): checked only
when both the case's PSU support and the PSU's form factor are truthy. -/
def psuFormFactorOk (caseSup : Option String) (p : PSUc) : Bool :=
  if truthyS caseSup ∧ truthyS p.form_factor then
    decide (caseSup = p.form_factor)
  else true

/-- Loop body of `GestorFiltros.filtrar_psu_por_case_y_componentes`
(filtros.py 285-298). -/
def filtrarPsuGo (caseSup : Option String) (pot : ℚ) :
    List PSUc → Except String (List PSUc)
  | [] => .ok []
  | p :: rest =>
    match psuFilterWattage p with
    | .error e => .error e
    | .ok w =>
      match filtrarPsuGo caseSup pot rest with
      | .error e => .error e
      | .ok l => .ok (if psuFormFactorOk caseSup p && decide (w ≥ pot * (6/5)) then p :: l else l)

/-- Source: `GestorFiltros.filtrar_psu_por_case_y_componentes`. -/
def filtrarPsuPorCaseYComponentes (psus : List PSUc) (caseData : Option Casec)
    (comp : Build) : Except String (List PSUc) :=
  filtrarPsuGo
    (caseData.bind (fun c => c.compatibility.bind CaseCompatRec.power_supply))
    (calcularPotenciaRequerida comp) psus

theorem filtrarPsuGo_spec (caseSup : Option String) (pot : ℚ)
    (hpot : 300 ≤ pot) (psus : List PSUc) (out : List PSUc)
    (hout : filtrarPsuGo caseSup pot psus = .ok out) :
    ∀ p ∈ out, p ∈ psus ∧
      ∃ w, psuFilterWattage p = .ok w ∧ w ≥ pot * (6/5) ∧ w ≥ 360 := by
  induction psus generalizing out with
  | nil =>
    cases hout
    intro p hp
    simp at hp
  | cons q rest ih =>
    intro p hp
    unfold filtrarPsuGo at hout
    rcases hq : psuFilterWattage q with e | w
    · rw [hq] at hout; simp at hout
    · rw [hq] at hout
      rcases hrest : filtrarPsuGo caseSup pot rest with e | l
      · rw [hrest] at hout; simp at hout
      · rw [hrest] at hout
        rcases hout with ⟨⟩
        split at hp
        · rename_i hcond
          rcases List.mem_cons.mp hp with rfl | hpl
          · have hge : w ≥ pot * (6/5) :=
              of_decide_eq_true ((Bool.and_eq_true _ _).mp hcond).2
            refine ⟨List.mem_cons_self _ _, w, hq, hge, ?_⟩
            have h36 : (360 : ℚ) ≤ pot * (6/5) := by linarith
            linarith
          · obtain ⟨hmem, hw⟩ := ih l hrest p hpl
            exact ⟨List.mem_cons_of_mem _ hmem, hw⟩
        · obtain ⟨hmem, hw⟩ := ih l hrest p hp
          exact ⟨List.mem_cons_of_mem _ hmem, hw⟩

/-- The PSU-section helper shared by the build validator results: a PSU whose
extracted wattage is 0 (absent field) only produces the
"no especifica potencia" warning. -/
theorem checkPsu_zero_wattage (b : Build) (r : Reporte) (p : PSUc)
    (hb : b.psu = some p) (hw : psuWattageFinal p = some 0) :
    checkPsu b r =
      .ok { r with advertencias := r.advertencias ++
          ["PSU seleccionado no especifica potencia"] } := by
  unfold checkPsu
  rw [hb]
  dsimp only
  rw [hw]
  dsimp only
  rw [if_neg (by norm_num)]

/-- C10: every PSU returned by the PSU filter carries a stored numeric
wattage at least 1.2 times the estimated power budget, hence at least 360 W
(the budget is floored at 300 W); a PSU whose wattage field is absent
(defaulting to 0) is never returned, even though the full-build validator
only warns for such a PSU. -/
theorem filtrar_psu_wattage_margin :
    ∀ (psus : List PSUc) (caseData : Option Casec) (comp : Build)
      (out : List PSUc),
      filtrarPsuPorCaseYComponentes psus caseData comp = .ok out →
      (∀ p ∈ out, p ∈ psus ∧
        ∃ w, psuFilterWattage p = .ok w ∧
          w ≥ calcularPotenciaRequerida comp * (6/5) ∧ w ≥ 360) ∧
      (∀ p, psuFilterWattage p = .ok 0 → p ∉ out) ∧
      (∀ (b : Build) (r : Reporte) (p : PSUc),
        b.psu = some p → psuWattageFinal p = some 0 →
        checkPsu b r =
          .ok { r with advertencias := r.advertencias ++
              ["PSU seleccionado no especifica potencia"] }) := by
  intro psus caseData comp out hout
  have hmain := filtrarPsuGo_spec _ _ (potencia_ge_300 comp) psus out hout
  refine ⟨hmain, ?_, fun b r p hb hw => checkPsu_zero_wattage b r p hb hw⟩
  intro p hp0 hpin
  obtain ⟨_, w, hw, _, hw360⟩ := hmain p hpin
  rw [hp0] at hw
  cases hw
  norm_num at hw360

theorem filtrar_psu_wattage_margin_witness :
    ({ power := some { wattage := .wdict (.num 600) } } : PSUc) ∈
        [({ power := some { wattage := .wdict (.num 600) } } : PSUc)] ∧
      ∃ w, psuFilterWattage { power := some { wattage := .wdict (.num 600) } } = .ok w ∧
        w ≥ calcularPotenciaRequerida {} * (6/5) ∧ w ≥ 360 := by
  have hout : filtrarPsuPorCaseYComponentes
      [{ power := some { wattage := .wdict (.num 600) } }] none {} =
      .ok [{ power := some { wattage := .wdict (.num 600) } }] := by
    unfold filtrarPsuPorCaseYComponentes
    norm_num [filtrarPsuGo, psuFilterWattage, psuFormFactorOk, truthyS,
      calcularPotenciaRequerida, Build.isEmpty]
  exact (filtrar_psu_wattage_margin
      [{ power := some { wattage := .wdict (.num 600) } }] none {} _ hout).1
    { power := some { wattage := .wdict (.num 600) } } (List.mem_singleton.mpr rfl)

end ArmaTuPc
